import Mathlib

/-!
Verification of the answer-evaluation and scoring engine of the
Homework-Management-and-Performance-Monitoring-System repository.

The development shallowly embeds the evaluator from
`src/models/answer_evaluator.py`, the token-overlap and cosine similarity
strategies from `src/models/nlp_processor.py`, and the letter-grade table
from `src/api/routes/evaluation_routes.py`.

Modelling conventions:
- Python strings are `List Char`; `str.upper`, `str.strip`, `str.split`,
  substring tests and `str.lower` are modelled on character lists.
- Python floats are exact rationals `ℚ`.  Python's `round(x, 1)`
  (round-half-to-even on the decimal written to one place) is modelled by
  `round1`, built from a round-half-to-even integer rounding `rhe`.
- Python dicts carrying question fields become a `Question` structure with
  `Option` fields; `dict.get(k, d)` becomes `Option.getD`.
- The evaluator's `nlp_processor.calculate_similarity` dependency is an
  injected function argument `simf`, mirroring the `nlp_processor`
  constructor parameter of `AnswerEvaluator`.
- An evaluation returning the `{'error': ...}` dict (unknown question
  type) is the `Except.error` case; every other outcome is `Except.ok`
  carrying the score-result record.
-/

/-! ### Python-string primitives on `List Char` -/

/-- `str.upper()` (ASCII-relevant part), character-wise uppercase. -/
def pyUpper (s : List Char) : List Char := s.map Char.toUpper

/-- `str.lower()` (ASCII-relevant part), character-wise lowercase. -/
def pyLower (s : List Char) : List Char := s.map Char.toLower

/-- `str.strip()`: remove leading and trailing whitespace. -/
def pyStrip (s : List Char) : List Char :=
  ((s.dropWhile Char.isWhitespace).reverse.dropWhile Char.isWhitespace).reverse

/-- `str.split()` with no argument: split on whitespace runs, dropping
empty pieces. -/
def pySplit (s : List Char) : List (List Char) :=
  (s.splitOnP Char.isWhitespace).filter (fun w => !w.isEmpty)

/-- Python's `\w` character class (ASCII-relevant part): alphanumeric or
underscore. -/
def pyIsWordChar (c : Char) : Bool := c.isAlphanum || c = '_'

/-- `NLPProcessor._tokenize`: `re.sub(r'[^\w\s]', ' ', text)` followed by
`text.split()`. -/
def tokenize (s : List Char) : List (List Char) :=
  pySplit (s.map (fun c => if pyIsWordChar c || c.isWhitespace then c else ' '))

/-! ### Python's `round(x, 1)` on exact rationals -/

/-- Round-half-to-even to the nearest integer, the mode Python's `round`
uses for its decimal argument. -/
def rhe (q : ℚ) : ℤ :=
  if q - ⌊q⌋ < 1/2 then ⌊q⌋
  else if 1/2 < q - ⌊q⌋ then ⌊q⌋ + 1
  else if ⌊q⌋ % 2 = 0 then ⌊q⌋ else ⌊q⌋ + 1

/-- Python's `round(x, 1)`: round to one decimal place, half to even. -/
def round1 (q : ℚ) : ℚ := (rhe (10 * q) : ℚ) / 10

/-! ### Data model: the question dict and the score-result dict -/

/-- The question dict consumed by `AnswerEvaluator.evaluate_answer`.
`none` models an absent key.  `marks` is a natural number: every question
this repository builds carries integer marks (1, 3 or 5). -/
structure Question where
  question_type : Option (List Char)
  correct_answer : Option (List Char)
  expected_answer : Option (List Char)
  key_points : Option (List (List Char))
  marks : Option ℕ
deriving DecidableEq

/-- The score-result dict.  Fields that only some branches emit are
`Option`s (`none` models an absent key).  `detailed_scores` packs the four
descriptive sub-scores, already scaled to percentages, in source order:
semantic similarity, key-point coverage, length adequacy, coherence.
The purely textual fields (`feedback`, `explanation`,
`improvement_suggestions`) are not modelled. -/
structure EvalResult where
  qtype : List Char
  is_correct : Bool
  marks_obtained : ℚ
  max_marks : ℚ
  percentage : ℚ
  semantic_similarity : Option ℚ
  key_points_coverage : Option ℚ
  missing_points : Option (List (List Char))
  detailed_scores : Option (ℚ × ℚ × ℚ × ℚ)
deriving DecidableEq

/-! ### `NLPProcessor` similarity strategies -/

/-- `NLPProcessor._simple_similarity`: Jaccard index of the two token
sets (the fallback strategy).  Python's `set(...)` is modelled by
`List.dedup`; the existential membership tests are unaffected by
duplicate removal. -/
def simpleSimilarity (text1 text2 : List Char) : ℚ :=
  if ((tokenize (pyLower text1)).dedup.isEmpty
      || (tokenize (pyLower text2)).dedup.isEmpty) then 0
  else
    (((tokenize (pyLower text1)).dedup.filter
        (fun w => decide (w ∈ (tokenize (pyLower text2)).dedup))).length : ℚ) /
      (((tokenize (pyLower text1)).dedup ++ (tokenize (pyLower text2)).dedup).dedup.length : ℚ)

/-- Pairwise dot product of two equal-length vectors,
`np.dot` on 1-d arrays. -/
def dotl (v w : List ℝ) : ℝ := (List.zipWith (fun a b => a * b) v w).sum

/-- The embedding strategy of `NLPProcessor.calculate_similarity`: cosine
similarity `np.dot(e1, e2) / (np.linalg.norm(e1) * np.linalg.norm(e2))`
of the two encoded vectors, returned as-is (no clamping in the source). -/
noncomputable def cosineSimilarity (v w : List ℝ) : ℝ :=
  dotl v w / (Real.sqrt (dotl v v) * Real.sqrt (dotl w w))

/-! ### `AnswerEvaluator` helpers -/

/-- The per-point test shared verbatim by `_check_key_points`
(lines 150-153) and `_get_missing_points` (lines 188-191): some word of
the point, of length `> 3`, occurs as a substring of the lowercased
answer. -/
def pointCovered (answer_lower : List Char) (point : List Char) : Bool :=
  ((pySplit (pyLower point)).filter (fun w => 3 < w.length)).any
    (fun w => decide (w <:+: answer_lower))

/-- `AnswerEvaluator._check_key_points`. -/
def checkKeyPoints (answer : List Char) (key_points : List (List Char)) : ℚ :=
  if key_points.isEmpty then 1
  else
    ((key_points.countP (fun p => pointCovered (pyLower answer) p)) : ℚ) /
      (key_points.length : ℚ)

/-- `AnswerEvaluator._check_length_adequacy`.  The two dict lookups with
defaults 20 and 200 are unfolded into conditionals. -/
def checkLengthAdequacy (answer : List Char) (question_type : List Char) : ℚ :=
  if ((pySplit answer).length : ℚ) <
      (if question_type = "SHORT_ANSWER".data then (20 : ℚ)
       else if question_type = "DESCRIPTIVE".data then 100 else 20) then
    ((pySplit answer).length : ℚ) /
      (if question_type = "SHORT_ANSWER".data then (20 : ℚ)
       else if question_type = "DESCRIPTIVE".data then 100 else 20)
  else if (if question_type = "SHORT_ANSWER".data then (100 : ℚ)
           else if question_type = "DESCRIPTIVE".data then 500 else 200) <
      ((pySplit answer).length : ℚ) then
    max (1/2)
      (1 - (((pySplit answer).length : ℚ) -
        (if question_type = "SHORT_ANSWER".data then (100 : ℚ)
         else if question_type = "DESCRIPTIVE".data then 500 else 200)) /
        (if question_type = "SHORT_ANSWER".data then (100 : ℚ)
         else if question_type = "DESCRIPTIVE".data then 500 else 200))
  else 1

/-- The sentence list of `AnswerEvaluator._check_coherence`:
`re.split(r'[.!?]+', answer)`, each piece stripped, blanks dropped.
Splitting at every single delimiter instead of at delimiter runs only
adds empty pieces, which the blank filter removes, so the two readings
agree. -/
def sentencesOf (answer : List Char) : List (List Char) :=
  ((answer.splitOnP (fun c => c = '.' || c = '!' || c = '?')).map pyStrip).filter
    (fun s => !s.isEmpty)

/-- `AnswerEvaluator._check_coherence`. -/
def checkCoherence (answer : List Char) : ℚ :=
  if (sentencesOf answer).length < 2 then 1/2
  else
    (((sentencesOf answer).countP (fun s => decide (3 ≤ (pySplit s).length))) : ℚ) /
      ((sentencesOf answer).length : ℚ)

/-- `AnswerEvaluator._get_missing_points`. -/
def getMissingPoints (answer : List Char) (key_points : List (List Char)) :
    List (List Char) :=
  key_points.filter (fun p => !pointCovered (pyLower answer) p)

/-- The short-answer combination, line 84: 60% semantic, 40% key points. -/
def combinedShort (similarity key_points_score : ℚ) : ℚ :=
  similarity * 0.6 + key_points_score * 0.4

/-- The descriptive weighted average, lines 122-125. -/
def combinedDescriptive (sem kp len coh : ℚ) : ℚ :=
  sem * 0.4 + kp * 0.3 + len * 0.15 + coh * 0.15

/-! ### `AnswerEvaluator` branches and dispatch -/

/-- `AnswerEvaluator._evaluate_mcq`. -/
def evaluateMcq (q : Question) (student_answer : List Char) : EvalResult :=
  ⟨"MCQ".data,
   decide (pyStrip (pyUpper student_answer) = pyStrip (pyUpper (q.correct_answer.getD []))),
   if pyStrip (pyUpper student_answer) = pyStrip (pyUpper (q.correct_answer.getD []))
     then ((q.marks.getD 1 : ℕ) : ℚ) else 0,
   ((q.marks.getD 1 : ℕ) : ℚ),
   if pyStrip (pyUpper student_answer) = pyStrip (pyUpper (q.correct_answer.getD []))
     then 100 else 0,
   none, none, none, none⟩

/-- `AnswerEvaluator._evaluate_short_answer`. -/
def evaluateShortAnswer (simf : List Char → List Char → ℚ) (q : Question)
    (student_answer : List Char) : EvalResult :=
  ⟨"SHORT_ANSWER".data,
   decide (0.6 ≤ combinedShort (simf student_answer (q.expected_answer.getD []))
     (checkKeyPoints student_answer (q.key_points.getD []))),
   round1 (combinedShort (simf student_answer (q.expected_answer.getD []))
     (checkKeyPoints student_answer (q.key_points.getD [])) * ((q.marks.getD 3 : ℕ) : ℚ)),
   ((q.marks.getD 3 : ℕ) : ℚ),
   round1 (combinedShort (simf student_answer (q.expected_answer.getD []))
     (checkKeyPoints student_answer (q.key_points.getD [])) * 100),
   some (round1 (simf student_answer (q.expected_answer.getD []) * 100)),
   some (round1 (checkKeyPoints student_answer (q.key_points.getD []) * 100)),
   some (getMissingPoints student_answer (q.key_points.getD [])),
   none⟩

/-- `AnswerEvaluator._evaluate_descriptive`. -/
def evaluateDescriptive (simf : List Char → List Char → ℚ) (q : Question)
    (student_answer : List Char) : EvalResult :=
  ⟨"DESCRIPTIVE".data,
   decide (0.5 ≤ combinedDescriptive (simf student_answer (q.expected_answer.getD []))
     (checkKeyPoints student_answer (q.key_points.getD []))
     (checkLengthAdequacy student_answer "DESCRIPTIVE".data)
     (checkCoherence student_answer)),
   round1 (combinedDescriptive (simf student_answer (q.expected_answer.getD []))
     (checkKeyPoints student_answer (q.key_points.getD []))
     (checkLengthAdequacy student_answer "DESCRIPTIVE".data)
     (checkCoherence student_answer) * ((q.marks.getD 5 : ℕ) : ℚ)),
   ((q.marks.getD 5 : ℕ) : ℚ),
   round1 (combinedDescriptive (simf student_answer (q.expected_answer.getD []))
     (checkKeyPoints student_answer (q.key_points.getD []))
     (checkLengthAdequacy student_answer "DESCRIPTIVE".data)
     (checkCoherence student_answer) * 100),
   none, none,
   some (getMissingPoints student_answer (q.key_points.getD [])),
   some (round1 (simf student_answer (q.expected_answer.getD []) * 100),
     round1 (checkKeyPoints student_answer (q.key_points.getD []) * 100),
     round1 (checkLengthAdequacy student_answer "DESCRIPTIVE".data * 100),
     round1 (checkCoherence student_answer * 100))⟩

/-- `AnswerEvaluator.evaluate_answer`: dispatch on
`question.get('question_type', 'MCQ')`; the unknown-type branch returns
the `{'error': ...}` dict, modelled as `Except.error`. -/
def evaluate (simf : List Char → List Char → ℚ) (q : Question)
    (student_answer : List Char) : Except (List Char) EvalResult :=
  if q.question_type.getD "MCQ".data = "MCQ".data then
    Except.ok (evaluateMcq q student_answer)
  else if q.question_type.getD "MCQ".data = "SHORT_ANSWER".data then
    Except.ok (evaluateShortAnswer simf q student_answer)
  else if q.question_type.getD "MCQ".data = "DESCRIPTIVE".data then
    Except.ok (evaluateDescriptive simf q student_answer)
  else
    Except.error ("Unknown question type: ".data ++ q.question_type.getD "MCQ".data)

/-- Projection used to state facts about the record a successful
evaluation returns. -/
def resultOf (x : Except (List Char) EvalResult) : EvalResult :=
  match x with
  | Except.ok r => r
  | Except.error _ => ⟨[], false, 0, 0, 0, none, none, none, none⟩

/-- `_calculate_grade` from `src/api/routes/evaluation_routes.py`. -/
def calculateGrade (percentage : ℚ) : String :=
  if 90 ≤ percentage then "A+"
  else if 85 ≤ percentage then "A"
  else if 80 ≤ percentage then "A-"
  else if 75 ≤ percentage then "B+"
  else if 70 ≤ percentage then "B"
  else if 65 ≤ percentage then "B-"
  else if 60 ≤ percentage then "C+"
  else if 55 ≤ percentage then "C"
  else if 50 ≤ percentage then "C-"
  else if 45 ≤ percentage then "D+"
  else if 40 ≤ percentage then "D"
  else "F"

/-! ### Derived definitions and concrete fixtures used by the theorems -/

/-- The numeric-output bounds a successful evaluation should satisfy. -/
def boundsOk : Except (List Char) EvalResult → Prop
  | Except.error _ => True
  | Except.ok r =>
      0 ≤ r.marks_obtained ∧ r.marks_obtained ≤ r.max_marks ∧
      0 ≤ r.percentage ∧ r.percentage ≤ 100

/-- The pre-rounding combined score each branch of `evaluate_answer`
computes: for MCQ the 0/1 correctness indicator (the source's
`max_marks if is_correct else 0` and `100.0 if is_correct else 0.0` are
the indicator times `max_marks` resp. times 100), for SHORT_ANSWER and
DESCRIPTIVE the branch's `combined_score`. -/
def combinedOf (simf : List Char → List Char → ℚ) (q : Question)
    (s : List Char) : ℚ :=
  if q.question_type.getD "MCQ".data = "MCQ".data then
    (if pyStrip (pyUpper s) = pyStrip (pyUpper (q.correct_answer.getD []))
      then 1 else 0)
  else if q.question_type.getD "MCQ".data = "SHORT_ANSWER".data then
    combinedShort (simf s (q.expected_answer.getD []))
      (checkKeyPoints s (q.key_points.getD []))
  else if q.question_type.getD "MCQ".data = "DESCRIPTIVE".data then
    combinedDescriptive (simf s (q.expected_answer.getD []))
      (checkKeyPoints s (q.key_points.getD []))
      (checkLengthAdequacy s "DESCRIPTIVE".data) (checkCoherence s)
  else 0

/-- A concrete SHORT_ANSWER question with an empty `key_points` list. -/
def qShortNoKeys : Question :=
  ⟨some "SHORT_ANSWER".data, none, some "photosynthesis".data, some [], some 3⟩

/-- A concrete MCQ question with correct answer "A" and 1 mark. -/
def qMcqA : Question := ⟨some "MCQ".data, some ['A'], none, none, some 1⟩

/-- An MCQ-shaped question with the `question_type` key absent. -/
def qNoType : Question := ⟨none, some ['B'], none, none, some 1⟩

/-- An unknown question type. -/
def qEssay : Question := ⟨some "ESSAY".data, none, none, none, none⟩

/-- An MCQ question with the `correct_answer` key absent. -/
def qMcqNoCorrect : Question := ⟨some "MCQ".data, none, none, none, some 1⟩

/-- A SHORT_ANSWER question whose evaluation exercises the rounding of
both `marks_obtained` and `percentage`. -/
def qShortC1 : Question :=
  ⟨some "SHORT_ANSWER".data, none, some "a d e".data, some ["zzzz".data], some 3⟩

/-! ### Facts about the rounding model -/

theorem rhe_cases (q : ℚ) : rhe q = ⌊q⌋ ∨ rhe q = ⌊q⌋ + 1 := by
  unfold rhe
  split_ifs <;> simp

theorem le_rhe (n : ℤ) (q : ℚ) (h : (n : ℚ) ≤ q) : n ≤ rhe q := by
  rcases rhe_cases q with h1 | h1 <;> rw [h1]
  · exact Int.le_floor.mpr h
  · exact le_trans (Int.le_floor.mpr h) (by omega)

theorem rhe_le (n : ℤ) (q : ℚ) (h : q ≤ (n : ℚ)) : rhe q ≤ n := by
  have hf : ⌊q⌋ ≤ n := by
    have h2 := Int.floor_le_floor h
    rwa [Int.floor_intCast] at h2
  have hfq : (⌊q⌋ : ℚ) ≤ q := Int.floor_le q
  unfold rhe
  split_ifs with h1 h2 h3
  · exact hf
  · have hhalf : (1 / 2 : ℚ) ≤ q - ⌊q⌋ := le_of_not_lt h1
    have hlt : (⌊q⌋ : ℚ) < (n : ℚ) := by linarith
    have : ⌊q⌋ < n := by exact_mod_cast hlt
    omega
  · exact hf
  · have hhalf : (1 / 2 : ℚ) ≤ q - ⌊q⌋ := le_of_not_lt h1
    have hlt : (⌊q⌋ : ℚ) < (n : ℚ) := by linarith
    have : ⌊q⌋ < n := by exact_mod_cast hlt
    omega

theorem round1_ge (n : ℤ) (q : ℚ) (h : (n : ℚ) ≤ 10 * q) : (n : ℚ) / 10 ≤ round1 q := by
  unfold round1
  have := le_rhe n (10 * q) h
  have hc : (n : ℚ) ≤ (rhe (10 * q) : ℚ) := by exact_mod_cast this
  linarith

theorem round1_le (n : ℤ) (q : ℚ) (h : 10 * q ≤ (n : ℚ)) : round1 q ≤ (n : ℚ) / 10 := by
  unfold round1
  have := rhe_le n (10 * q) h
  have hc : (rhe (10 * q) : ℚ) ≤ (n : ℚ) := by exact_mod_cast this
  linarith

/-- Rounding a value of `[0, m]` to one decimal stays in `[0, m]`. -/
theorem round1_bounds (m : ℕ) (x : ℚ) (h0 : 0 ≤ x) (h1 : x ≤ (m : ℚ)) :
    0 ≤ round1 x ∧ round1 x ≤ (m : ℚ) := by
  constructor
  · have := round1_ge 0 x (by push_cast; linarith)
    simpa using this
  · have := round1_le (10 * m) x (by push_cast; linarith)
    calc round1 x ≤ ((10 * (m : ℤ) : ℤ) : ℚ) / 10 := this
    _ = (m : ℚ) := by push_cast; ring

/-- Evaluation rule for `round1` away from ties: if `10 q` is within
one half of the integer `n`, the rounded value is `n / 10`. -/
theorem round1_eq (n : ℤ) (q : ℚ) (h : |10 * q - (n : ℚ)| < 1 / 2) :
    round1 q = (n : ℚ) / 10 := by
  have habs := abs_lt.mp h
  have hr : rhe (10 * q) = n := by
    rcases le_or_lt (n : ℚ) (10 * q) with hc | hc
    · have hf : ⌊10 * q⌋ = n := Int.floor_eq_iff.mpr ⟨hc, by linarith⟩
      unfold rhe
      rw [hf]
      rw [if_pos (show 10 * q - ((n : ℤ) : ℚ) < 1 / 2 by linarith)]
    · have hf : ⌊10 * q⌋ = n - 1 := by
        apply Int.floor_eq_iff.mpr
        constructor
        · push_cast; linarith
        · push_cast; linarith
      unfold rhe
      rw [hf]
      rw [if_neg (show ¬(10 * q - ((n - 1 : ℤ) : ℚ) < 1 / 2) by push_cast; linarith)]
      rw [if_pos (show (1 / 2 : ℚ) < 10 * q - ((n - 1 : ℤ) : ℚ) by push_cast; linarith)]
      omega
  rw [round1, hr]

/-- `round1` is the identity on natural numbers. -/
theorem round1_natCast (m : ℕ) : round1 ((m : ℕ) : ℚ) = (m : ℚ) := by
  have := round1_eq (10 * m) (m : ℚ) (by push_cast; norm_num)
  rw [this]
  push_cast
  ring

/-! ### Bounds of the sub-scores -/

theorem checkKeyPoints_bounds (answer : List Char) (kps : List (List Char)) :
    0 ≤ checkKeyPoints answer kps ∧ checkKeyPoints answer kps ≤ 1 := by
  unfold checkKeyPoints
  split_ifs with h
  · norm_num
  · constructor
    · positivity
    · apply div_le_one_of_le₀
      · exact_mod_cast List.countP_le_length _
      · positivity

theorem checkCoherence_bounds (answer : List Char) :
    0 ≤ checkCoherence answer ∧ checkCoherence answer ≤ 1 := by
  unfold checkCoherence
  split_ifs with h
  · norm_num
  · constructor
    · positivity
    · apply div_le_one_of_le₀
      · exact_mod_cast List.countP_le_length _
      · positivity

/-- Core shape of `_check_length_adequacy` for positive word-count
thresholds. -/
theorem lengthCore_bounds (w m M : ℚ) (hw : 0 ≤ w) (hm : 0 < m) (hM : 0 < M) :
    0 ≤ (if w < m then w / m else if M < w then max (1/2) (1 - (w - M) / M) else 1) ∧
      (if w < m then w / m else if M < w then max (1/2) (1 - (w - M) / M) else 1) ≤ 1 := by
  split_ifs with h1 h2
  · exact ⟨by positivity, div_le_one_of_le₀ (le_of_lt h1) hm.le⟩
  · constructor
    · exact le_trans (by norm_num) (le_max_left _ _)
    · apply max_le (by norm_num)
      have hdiv : 0 ≤ (w - M) / M := div_nonneg (by linarith) hM.le
      linarith
  · norm_num

theorem checkLengthAdequacy_bounds (answer : List Char) (question_type : List Char) :
    0 ≤ checkLengthAdequacy answer question_type ∧
      checkLengthAdequacy answer question_type ≤ 1 := by
  unfold checkLengthAdequacy
  apply lengthCore_bounds
  · positivity
  · split_ifs <;> norm_num
  · split_ifs <;> norm_num

theorem combinedShort_bounds (s k : ℚ) (hs0 : 0 ≤ s) (hs1 : s ≤ 1)
    (hk0 : 0 ≤ k) (hk1 : k ≤ 1) :
    0 ≤ combinedShort s k ∧ combinedShort s k ≤ 1 := by
  unfold combinedShort
  constructor <;> nlinarith

theorem combinedDescriptive_bounds (s k l c : ℚ) (hs0 : 0 ≤ s) (hs1 : s ≤ 1)
    (hk0 : 0 ≤ k) (hk1 : k ≤ 1) (hl0 : 0 ≤ l) (hl1 : l ≤ 1)
    (hc0 : 0 ≤ c) (hc1 : c ≤ 1) :
    0 ≤ combinedDescriptive s k l c ∧ combinedDescriptive s k l c ≤ 1 := by
  unfold combinedDescriptive
  constructor <;> nlinarith

/-! ### Claim C6 -/

/-- C6: for the SHORT_ANSWER and DESCRIPTIVE combinations, holding the
semantic-similarity value (and, for DESCRIPTIVE, the length-adequacy and
coherence values) fixed, increasing the key-point coverage value never
decreases the combined score. -/
theorem c6_coverage_monotone (s l c kp kp' : ℚ) (h : kp ≤ kp') :
    combinedShort s kp ≤ combinedShort s kp' ∧
      combinedDescriptive s kp l c ≤ combinedDescriptive s kp' l c := by
  unfold combinedShort combinedDescriptive
  constructor <;> nlinarith

theorem c6_coverage_monotone_witness :
    combinedShort (1/2) (1/5) ≤ combinedShort (1/2) (2/5) ∧
      combinedDescriptive (1/2) (1/5) (1/4) (3/4) ≤
        combinedDescriptive (1/2) (2/5) (1/4) (3/4) :=
  c6_coverage_monotone (1/2) (1/4) (3/4) (1/5) (2/5) (by norm_num)

/-! ### Claim C8 -/

set_option maxHeartbeats 2000000 in
/-- C8: the letter-grade function realises the fixed breakpoint table:
A+ for ≥90, A for ≥85, A- for ≥80, B+ for ≥75, B for ≥70, B- for ≥65,
C+ for ≥60, C for ≥55, C- for ≥50, D+ for ≥45, D for ≥40, else F
(each band read top-down, i.e. up to the next breakpoint). -/
theorem c8_grade_table (p : ℚ) :
    (90 ≤ p → calculateGrade p = "A+") ∧
    (85 ≤ p → p < 90 → calculateGrade p = "A") ∧
    (80 ≤ p → p < 85 → calculateGrade p = "A-") ∧
    (75 ≤ p → p < 80 → calculateGrade p = "B+") ∧
    (70 ≤ p → p < 75 → calculateGrade p = "B") ∧
    (65 ≤ p → p < 70 → calculateGrade p = "B-") ∧
    (60 ≤ p → p < 65 → calculateGrade p = "C+") ∧
    (55 ≤ p → p < 60 → calculateGrade p = "C") ∧
    (50 ≤ p → p < 55 → calculateGrade p = "C-") ∧
    (45 ≤ p → p < 50 → calculateGrade p = "D+") ∧
    (40 ≤ p → p < 45 → calculateGrade p = "D") ∧
    (p < 40 → calculateGrade p = "F") := by
  refine ⟨?_, ?_, ?_, ?_, ?_, ?_, ?_, ?_, ?_, ?_, ?_, ?_⟩ <;>
    (intros; unfold calculateGrade; split_ifs <;> first | rfl | linarith)

theorem c8_grade_table_witness : calculateGrade 87 = "A" :=
  (c8_grade_table 87).2.1 (by norm_num) (by norm_num)

/-! ### Claim C7 -/

/-- C7: for every question whose `key_points` list is empty and every
student answer, the key-point coverage sub-score is exactly 1.0, and the
SHORT_ANSWER / DESCRIPTIVE results report a `key_points_coverage` of
100.0. -/
theorem c7_empty_key_points_full_coverage (simf : List Char → List Char → ℚ)
    (q : Question) (s : List Char) (hkp : q.key_points.getD [] = []) :
    checkKeyPoints s (q.key_points.getD []) = 1 ∧
    (q.question_type.getD "MCQ".data = "SHORT_ANSWER".data →
      (resultOf (evaluate simf q s)).key_points_coverage = some 100) ∧
    (q.question_type.getD "MCQ".data = "DESCRIPTIVE".data →
      (resultOf (evaluate simf q s)).detailed_scores.map (fun t => t.2.1) = some 100) := by
  have hck : checkKeyPoints s (q.key_points.getD []) = 1 := by
    rw [hkp]; rfl
  have h100 : round1 ((1 : ℚ) * 100) = 100 := by
    rw [round1_eq 1000 (1 * 100) (by norm_num)]; norm_num
  refine ⟨hck, ?_, ?_⟩
  · intro ht
    simp only [evaluate, ht]
    rw [if_pos trivial]
    show some (round1 (checkKeyPoints s (q.key_points.getD []) * 100)) = some 100
    rw [hck, h100]
  · intro ht
    simp only [evaluate, ht]
    rw [if_pos trivial]
    show some (round1 (checkKeyPoints s (q.key_points.getD []) * 100)) = some 100
    rw [hck, h100]

theorem c7_empty_key_points_full_coverage_witness :
    checkKeyPoints "plants".data (qShortNoKeys.key_points.getD []) = 1 ∧
    (qShortNoKeys.question_type.getD "MCQ".data = "SHORT_ANSWER".data →
      (resultOf (evaluate simpleSimilarity qShortNoKeys "plants".data)).key_points_coverage =
        some 100) ∧
    (qShortNoKeys.question_type.getD "MCQ".data = "DESCRIPTIVE".data →
      (resultOf (evaluate simpleSimilarity qShortNoKeys
        "plants".data)).detailed_scores.map (fun t => t.2.1) = some 100) :=
  c7_empty_key_points_full_coverage simpleSimilarity qShortNoKeys "plants".data (by decide)

/-! ### Claim C2 -/

/-- C2: for an MCQ question whose correct answer is a single letter that
normalisation fixes, the evaluation is correct (full marks, 100%)
exactly when the student answer equals that letter up to case and
surrounding whitespace, and incorrect (0 marks, 0%) otherwise. -/
theorem c2_mcq_letter_match (simf : List Char → List Char → ℚ) (q : Question)
    (s : List Char) (c : Char) (hq : q.question_type.getD "MCQ".data = "MCQ".data)
    (hco : q.correct_answer = some [c]) (hc : pyStrip (pyUpper [c]) = [c]) :
    (pyStrip (pyUpper s) = [c] →
      (resultOf (evaluate simf q s)).is_correct = true ∧
      (resultOf (evaluate simf q s)).marks_obtained = (resultOf (evaluate simf q s)).max_marks ∧
      (resultOf (evaluate simf q s)).percentage = 100) ∧
    (pyStrip (pyUpper s) ≠ [c] →
      (resultOf (evaluate simf q s)).is_correct = false ∧
      (resultOf (evaluate simf q s)).marks_obtained = 0 ∧
      (resultOf (evaluate simf q s)).percentage = 0) := by
  have hcorr : pyStrip (pyUpper (q.correct_answer.getD [])) = [c] := by
    rw [hco]
    exact hc
  have hres : resultOf (evaluate simf q s) = evaluateMcq q s := by
    simp only [evaluate, hq]
    rw [if_pos trivial]
    rfl
  rw [hres]
  unfold evaluateMcq
  rw [hcorr]
  constructor
  · intro hs
    refine ⟨?_, ?_, ?_⟩ <;> simp [hs]
  · intro hs
    refine ⟨?_, ?_, ?_⟩ <;> simp [hs]

theorem c2_mcq_letter_match_witness :
    (resultOf (evaluate simpleSimilarity qMcqA " a ".data)).is_correct = true ∧
    (resultOf (evaluate simpleSimilarity qMcqA " a ".data)).marks_obtained =
      (resultOf (evaluate simpleSimilarity qMcqA " a ".data)).max_marks ∧
    (resultOf (evaluate simpleSimilarity qMcqA " a ".data)).percentage = 100 :=
  (c2_mcq_letter_match simpleSimilarity qMcqA " a ".data 'A' rfl rfl (by decide)).1
    (by decide)

/-! ### Claim C3 (corrected) -/

/-- C3 counterexample: a question with a missing `question_type` does NOT
signal an error — `evaluate_answer` silently defaults the type to MCQ and
produces a full MCQ score result (here even a correct one). -/
theorem c3_missing_type_defaults_mcq :
    evaluate simpleSimilarity qNoType "B".data =
      Except.ok (evaluateMcq qNoType "B".data) ∧
    (resultOf (evaluate simpleSimilarity qNoType "B".data)).qtype = "MCQ".data ∧
    (resultOf (evaluate simpleSimilarity qNoType "B".data)).is_correct = true :=
  ⟨rfl, rfl, rfl⟩

/-- C3 as amended: for a question whose `question_type` key is PRESENT
but not one of MCQ, SHORT_ANSWER, DESCRIPTIVE, `evaluate_answer` returns
only the unknown-type error value and no partial score result; a missing
`question_type` instead silently defaults to MCQ. -/
theorem c3_unknown_type_error (simf : List Char → List Char → ℚ) (q : Question)
    (s qt : List Char) (hqt : q.question_type = some qt)
    (h1 : qt ≠ "MCQ".data) (h2 : qt ≠ "SHORT_ANSWER".data)
    (h3 : qt ≠ "DESCRIPTIVE".data) :
    evaluate simf q s = Except.error ("Unknown question type: ".data ++ qt) := by
  simp only [evaluate, hqt, Option.getD_some]
  rw [if_neg h1, if_neg h2, if_neg h3]

theorem c3_unknown_type_error_witness :
    evaluate simpleSimilarity qEssay "hello".data =
      Except.error ("Unknown question type: ".data ++ "ESSAY".data) :=
  c3_unknown_type_error simpleSimilarity qEssay "hello".data "ESSAY".data rfl
    (by decide) (by decide) (by decide)

/-! ### Claim C5 (corrected) -/

/-- C5 counterexample: with a missing `correct_answer`, a student answer
that is empty after normalisation compares equal to the empty normalised
correct answer, so the evaluation reports `is_correct = True` with full
marks — not the always-incorrect behaviour the claim states. -/
theorem c5_empty_correct_matches_empty_student :
    (resultOf (evaluate simpleSimilarity qMcqNoCorrect "".data)).is_correct = true ∧
    (resultOf (evaluate simpleSimilarity qMcqNoCorrect "".data)).marks_obtained = 1 := by
  constructor
  · rfl
  · show (if pyStrip (pyUpper "".data) =
        pyStrip (pyUpper (qMcqNoCorrect.correct_answer.getD [])) then
        ((1 : ℕ) : ℚ) else 0) = 1
    rw [if_pos (show pyStrip (pyUpper "".data) =
      pyStrip (pyUpper (qMcqNoCorrect.correct_answer.getD [])) by decide)]
    norm_num

/-- C5 as amended: with a missing or empty `correct_answer` on an MCQ
question, `evaluate_answer` never signals an error, and reports
`is_correct = False` for every student answer that is non-empty after
normalisation; a student answer that IS empty after normalisation is
reported correct. -/
theorem c5_missing_correct_answer (simf : List Char → List Char → ℚ)
    (q : Question) (s : List Char)
    (hq : q.question_type.getD "MCQ".data = "MCQ".data)
    (hco : q.correct_answer = none ∨ q.correct_answer = some [])
    (hs : pyStrip (pyUpper s) ≠ []) :
    evaluate simf q s = Except.ok (evaluateMcq q s) ∧
    (evaluateMcq q s).is_correct = false := by
  have hres : evaluate simf q s = Except.ok (evaluateMcq q s) := by
    simp only [evaluate, hq]
    rw [if_pos trivial]
  refine ⟨hres, ?_⟩
  have hcorr : pyStrip (pyUpper (q.correct_answer.getD [])) = [] := by
    rcases hco with h | h <;> rw [h] <;> rfl
  show decide (pyStrip (pyUpper s) = pyStrip (pyUpper (q.correct_answer.getD []))) = false
  rw [hcorr]
  simp [hs]

theorem c5_missing_correct_answer_witness :
    evaluate simpleSimilarity qMcqNoCorrect "B".data =
      Except.ok (evaluateMcq qMcqNoCorrect "B".data) ∧
    (evaluateMcq qMcqNoCorrect "B".data).is_correct = false :=
  c5_missing_correct_answer simpleSimilarity qMcqNoCorrect "B".data rfl
    (Or.inl rfl) (by decide)

/-! ### Claim C9 -/

theorem countP_add_not {α : Type} (p : α → Bool) (l : List α) :
    l.countP p + (l.filter (fun a => !p a)).length = l.length := by
  induction l with
  | nil => simp
  | cons a l ih =>
    by_cases h : p a <;> simp [List.countP_cons, List.filter_cons, h] <;> omega

/-- C9: the missing-points computation returns exactly the key points
the coverage computation does not count as covered (both use the shared
`pointCovered` test); hence for a nonempty `key_points` list the coverage
equals `1 - |missing| / |key_points|`, and the missing list is empty
precisely when the coverage is 1.0. -/
theorem c9_missing_points_coverage (answer : List Char) (kps : List (List Char))
    (hne : kps ≠ []) :
    getMissingPoints answer kps =
      kps.filter (fun p => !pointCovered (pyLower answer) p) ∧
    checkKeyPoints answer kps =
      1 - ((getMissingPoints answer kps).length : ℚ) / (kps.length : ℚ) ∧
    (getMissingPoints answer kps = [] ↔ checkKeyPoints answer kps = 1) := by
  have hlen : kps.length ≠ 0 := fun h => hne (List.length_eq_zero.mp h)
  have hlenQ : ((kps.length : ℕ) : ℚ) ≠ 0 := by exact_mod_cast hlen
  have hsum := countP_add_not (fun p => pointCovered (pyLower answer) p) kps
  have hemp : kps.isEmpty = false := by
    cases kps with
    | nil => exact absurd rfl hne
    | cons a l => rfl
  have hck : checkKeyPoints answer kps =
      ((kps.countP (fun p => pointCovered (pyLower answer) p)) : ℚ) /
        ((kps.length : ℕ) : ℚ) := by
    unfold checkKeyPoints
    rw [hemp]
    rfl
  refine ⟨rfl, ?_, ?_⟩
  · rw [hck]
    unfold getMissingPoints
    rw [eq_sub_iff_add_eq, div_add_div_same, div_eq_one_iff_eq hlenQ]
    exact_mod_cast hsum
  · constructor
    · intro hmp
      have hm0 : (kps.filter (fun p => !pointCovered (pyLower answer) p)).length = 0 := by
        rw [show kps.filter (fun p => !pointCovered (pyLower answer) p) =
          getMissingPoints answer kps from rfl, hmp]
        rfl
      have hcov : kps.countP (fun p => pointCovered (pyLower answer) p) = kps.length := by
        omega
      rw [hck, hcov, div_self hlenQ]
    · intro hone
      rw [hck, div_eq_one_iff_eq hlenQ] at hone
      have hcovN : kps.countP (fun p => pointCovered (pyLower answer) p) = kps.length := by
        exact_mod_cast hone
      have hm0 : (kps.filter (fun p => !pointCovered (pyLower answer) p)).length = 0 := by
        omega
      unfold getMissingPoints
      exact List.length_eq_zero.mp hm0

theorem c9_missing_points_coverage_witness :
    getMissingPoints "gravity pulls".data ["gravity".data, "mass".data] =
      ["gravity".data, "mass".data].filter
        (fun p => !pointCovered (pyLower "gravity pulls".data) p) ∧
    checkKeyPoints "gravity pulls".data ["gravity".data, "mass".data] =
      1 - ((getMissingPoints "gravity pulls".data ["gravity".data, "mass".data]).length : ℚ) /
        (["gravity".data, "mass".data].length : ℚ) ∧
    (getMissingPoints "gravity pulls".data ["gravity".data, "mass".data] = [] ↔
      checkKeyPoints "gravity pulls".data ["gravity".data, "mass".data] = 1) :=
  c9_missing_points_coverage "gravity pulls".data ["gravity".data, "mass".data] (by decide)

/-! ### Claim C4 (corrected) -/

/-- The token-overlap intersection is never larger than the deduplicated
union. -/
theorem inter_length_le_union (w1 w2 : List (List Char)) (h1 : w1.Nodup) :
    (w1.filter (fun w => decide (w ∈ w2))).length ≤ ((w1 ++ w2).dedup).length := by
  have hnd : (w1.filter (fun w => decide (w ∈ w2))).Nodup := h1.filter _
  have hlen1 : (w1.filter (fun w => decide (w ∈ w2))).length =
      (w1.filter (fun w => decide (w ∈ w2))).toFinset.card := by
    rw [List.card_toFinset, List.dedup_eq_self.mpr hnd]
  have hlen2 : ((w1 ++ w2).dedup).length = (w1 ++ w2).toFinset.card := by
    rw [List.card_toFinset]
  rw [hlen1, hlen2]
  apply Finset.card_le_card
  intro x hx
  rw [List.mem_toFinset] at hx ⊢
  exact List.mem_append.mpr (Or.inl (List.mem_filter.mp hx).1)

/-- C4 counterexample: the embedding strategy does NOT clamp the cosine
to `[0, 1]`: for the opposite one-dimensional embeddings `[1]` and
`[-1]` the returned similarity is `-1`, which is negative. -/
theorem c4_cosine_not_clamped :
    cosineSimilarity [1] [-1] = -1 ∧ cosineSimilarity [1] [-1] < 0 := by
  have h : cosineSimilarity [1] [-1] = -1 := by
    simp [cosineSimilarity, dotl]
  exact ⟨h, by rw [h]; norm_num⟩

/-- C4 as amended: the token-overlap strategy always returns a value in
`[0, 1]` and returns 0.0 whenever either input has an empty token set
after normalisation; the embedding strategy returns the raw
(unclamped) cosine, which can be negative. -/
theorem c4_token_overlap_bounds (a b : List Char) :
    (0 ≤ simpleSimilarity a b ∧ simpleSimilarity a b ≤ 1) ∧
    ((tokenize (pyLower a)).dedup = [] ∨ (tokenize (pyLower b)).dedup = [] →
      simpleSimilarity a b = 0) := by
  constructor
  · unfold simpleSimilarity
    split_ifs with h
    · norm_num
    · constructor
      · positivity
      · apply div_le_one_of_le₀ _ (by positivity)
        exact_mod_cast inter_length_le_union _ _ (List.nodup_dedup _)
  · intro h
    unfold simpleSimilarity
    rcases h with h | h <;> rw [if_pos (by simp [h])]

theorem c4_token_overlap_bounds_witness :
    (0 ≤ simpleSimilarity "".data "plants grow".data ∧
      simpleSimilarity "".data "plants grow".data ≤ 1) ∧
    ((tokenize (pyLower "".data)).dedup = [] ∨
        (tokenize (pyLower "plants grow".data)).dedup = [] →
      simpleSimilarity "".data "plants grow".data = 0) :=
  c4_token_overlap_bounds "".data "plants grow".data

/-! ### Claim C10 -/

/-- C10: if the injected similarity function returns values in `[0, 1]`,
then every sub-score lies in `[0, 1]`, both combined scores lie in
`[0, 1]`, and every evaluation of a recognized type has
`0 ≤ marks_obtained ≤ max_marks` and `0 ≤ percentage ≤ 100`. -/
theorem c10_score_bounds (simf : List Char → List Char → ℚ)
    (hsim : ∀ a b, 0 ≤ simf a b ∧ simf a b ≤ 1) (q : Question) (s : List Char) :
    (0 ≤ checkKeyPoints s (q.key_points.getD []) ∧
      checkKeyPoints s (q.key_points.getD []) ≤ 1) ∧
    (0 ≤ checkLengthAdequacy s "DESCRIPTIVE".data ∧
      checkLengthAdequacy s "DESCRIPTIVE".data ≤ 1) ∧
    (0 ≤ checkCoherence s ∧ checkCoherence s ≤ 1) ∧
    (0 ≤ combinedShort (simf s (q.expected_answer.getD []))
        (checkKeyPoints s (q.key_points.getD [])) ∧
      combinedShort (simf s (q.expected_answer.getD []))
        (checkKeyPoints s (q.key_points.getD [])) ≤ 1) ∧
    (0 ≤ combinedDescriptive (simf s (q.expected_answer.getD []))
        (checkKeyPoints s (q.key_points.getD []))
        (checkLengthAdequacy s "DESCRIPTIVE".data) (checkCoherence s) ∧
      combinedDescriptive (simf s (q.expected_answer.getD []))
        (checkKeyPoints s (q.key_points.getD []))
        (checkLengthAdequacy s "DESCRIPTIVE".data) (checkCoherence s) ≤ 1) ∧
    boundsOk (evaluate simf q s) := by
  obtain ⟨hkp0, hkp1⟩ := checkKeyPoints_bounds s (q.key_points.getD [])
  obtain ⟨hl0, hl1⟩ := checkLengthAdequacy_bounds s "DESCRIPTIVE".data
  obtain ⟨hc0, hc1⟩ := checkCoherence_bounds s
  obtain ⟨hs0, hs1⟩ := hsim s (q.expected_answer.getD [])
  obtain ⟨hcs0, hcs1⟩ := combinedShort_bounds _ _ hs0 hs1 hkp0 hkp1
  obtain ⟨hcd0, hcd1⟩ :=
    combinedDescriptive_bounds _ _ _ _ hs0 hs1 hkp0 hkp1 hl0 hl1 hc0 hc1
  refine ⟨⟨hkp0, hkp1⟩, ⟨hl0, hl1⟩, ⟨hc0, hc1⟩, ⟨hcs0, hcs1⟩, ⟨hcd0, hcd1⟩, ?_⟩
  unfold evaluate
  split_ifs with h1 h2 h3
  · -- MCQ branch
    show 0 ≤ (evaluateMcq q s).marks_obtained ∧
      (evaluateMcq q s).marks_obtained ≤ (evaluateMcq q s).max_marks ∧
      0 ≤ (evaluateMcq q s).percentage ∧ (evaluateMcq q s).percentage ≤ 100
    unfold evaluateMcq
    refine ⟨?_, ?_, ?_, ?_⟩ <;> dsimp only <;> split_ifs <;>
      first
      | positivity
      | norm_num
  · -- SHORT_ANSWER branch
    show 0 ≤ (evaluateShortAnswer simf q s).marks_obtained ∧
      (evaluateShortAnswer simf q s).marks_obtained ≤
        (evaluateShortAnswer simf q s).max_marks ∧
      0 ≤ (evaluateShortAnswer simf q s).percentage ∧
      (evaluateShortAnswer simf q s).percentage ≤ 100
    unfold evaluateShortAnswer
    dsimp only
    have hm3 : (0 : ℚ) ≤ ((q.marks.getD 3 : ℕ) : ℚ) := by positivity
    obtain ⟨ha, hb⟩ := round1_bounds (q.marks.getD 3)
      (combinedShort (simf s (q.expected_answer.getD []))
        (checkKeyPoints s (q.key_points.getD [])) * ((q.marks.getD 3 : ℕ) : ℚ))
      (mul_nonneg hcs0 hm3) (by nlinarith)
    obtain ⟨hp, hq'⟩ := round1_bounds 100
      (combinedShort (simf s (q.expected_answer.getD []))
        (checkKeyPoints s (q.key_points.getD [])) * 100)
      (by nlinarith) (by push_cast; nlinarith)
    refine ⟨ha, hb, hp, by exact_mod_cast hq'⟩
  · -- DESCRIPTIVE branch
    show 0 ≤ (evaluateDescriptive simf q s).marks_obtained ∧
      (evaluateDescriptive simf q s).marks_obtained ≤
        (evaluateDescriptive simf q s).max_marks ∧
      0 ≤ (evaluateDescriptive simf q s).percentage ∧
      (evaluateDescriptive simf q s).percentage ≤ 100
    unfold evaluateDescriptive
    dsimp only
    have hm5 : (0 : ℚ) ≤ ((q.marks.getD 5 : ℕ) : ℚ) := by positivity
    obtain ⟨ha, hb⟩ := round1_bounds (q.marks.getD 5)
      (combinedDescriptive (simf s (q.expected_answer.getD []))
        (checkKeyPoints s (q.key_points.getD []))
        (checkLengthAdequacy s "DESCRIPTIVE".data) (checkCoherence s) *
        ((q.marks.getD 5 : ℕ) : ℚ))
      (mul_nonneg hcd0 hm5) (by nlinarith)
    obtain ⟨hp, hq'⟩ := round1_bounds 100
      (combinedDescriptive (simf s (q.expected_answer.getD []))
        (checkKeyPoints s (q.key_points.getD []))
        (checkLengthAdequacy s "DESCRIPTIVE".data) (checkCoherence s) * 100)
      (by nlinarith) (by push_cast; nlinarith)
    refine ⟨ha, hb, hp, by exact_mod_cast hq'⟩
  · -- unknown type: only the error value is produced
    trivial

theorem c10_score_bounds_witness :
    (0 ≤ checkKeyPoints "plants".data (qShortNoKeys.key_points.getD []) ∧
      checkKeyPoints "plants".data (qShortNoKeys.key_points.getD []) ≤ 1) ∧
    (0 ≤ checkLengthAdequacy "plants".data "DESCRIPTIVE".data ∧
      checkLengthAdequacy "plants".data "DESCRIPTIVE".data ≤ 1) ∧
    (0 ≤ checkCoherence "plants".data ∧ checkCoherence "plants".data ≤ 1) ∧
    (0 ≤ combinedShort ((1 : ℚ) / 2)
        (checkKeyPoints "plants".data (qShortNoKeys.key_points.getD [])) ∧
      combinedShort ((1 : ℚ) / 2)
        (checkKeyPoints "plants".data (qShortNoKeys.key_points.getD [])) ≤ 1) ∧
    (0 ≤ combinedDescriptive ((1 : ℚ) / 2)
        (checkKeyPoints "plants".data (qShortNoKeys.key_points.getD []))
        (checkLengthAdequacy "plants".data "DESCRIPTIVE".data)
        (checkCoherence "plants".data) ∧
      combinedDescriptive ((1 : ℚ) / 2)
        (checkKeyPoints "plants".data (qShortNoKeys.key_points.getD []))
        (checkLengthAdequacy "plants".data "DESCRIPTIVE".data)
        (checkCoherence "plants".data) ≤ 1) ∧
    boundsOk (evaluate (fun _ _ => (1 : ℚ) / 2) qShortNoKeys "plants".data) :=
  c10_score_bounds (fun _ _ => (1 : ℚ) / 2)
    (by intro a b; norm_num) qShortNoKeys "plants".data

/-! ### Claim C1 (corrected) -/

/-- C1 counterexample: on this SHORT_ANSWER evaluation the combined
score is 0.12, so `marks_obtained = round(0.36, 1) = 0.4` and
`percentage = round(12.0, 1) = 12.0`; but
`marks_obtained / max_marks * 100 = 40/3 ≈ 13.3 ≠ 12.0`, whether or not
that quotient is rounded to one decimal.  The stated identity only
relates the two fields before `marks_obtained` is rounded. -/
theorem c1_percentage_identity_fails :
    (resultOf (evaluate simpleSimilarity qShortC1 "a b c".data)).percentage = 12 ∧
    (resultOf (evaluate simpleSimilarity qShortC1 "a b c".data)).marks_obtained = 2/5 ∧
    (resultOf (evaluate simpleSimilarity qShortC1 "a b c".data)).max_marks = 3 ∧
    (resultOf (evaluate simpleSimilarity qShortC1 "a b c".data)).percentage ≠
      (resultOf (evaluate simpleSimilarity qShortC1 "a b c".data)).marks_obtained /
        (resultOf (evaluate simpleSimilarity qShortC1 "a b c".data)).max_marks * 100 ∧
    (resultOf (evaluate simpleSimilarity qShortC1 "a b c".data)).percentage ≠
      round1 ((resultOf (evaluate simpleSimilarity qShortC1 "a b c".data)).marks_obtained /
        (resultOf (evaluate simpleSimilarity qShortC1 "a b c".data)).max_marks * 100) := by
  have hsim : simpleSimilarity "a b c".data (qShortC1.expected_answer.getD []) =
      ((1 : ℕ) : ℚ) / ((5 : ℕ) : ℚ) := rfl
  have hkp : checkKeyPoints "a b c".data (qShortC1.key_points.getD []) =
      ((0 : ℕ) : ℚ) / ((1 : ℕ) : ℚ) := rfl
  have hc : combinedShort (simpleSimilarity "a b c".data (qShortC1.expected_answer.getD []))
      (checkKeyPoints "a b c".data (qShortC1.key_points.getD [])) = 3/25 := by
    rw [hsim, hkp]
    unfold combinedShort
    norm_num
  have hpct : (resultOf (evaluate simpleSimilarity qShortC1 "a b c".data)).percentage = 12 := by
    show round1 (combinedShort
      (simpleSimilarity "a b c".data (qShortC1.expected_answer.getD []))
      (checkKeyPoints "a b c".data (qShortC1.key_points.getD [])) * 100) = 12
    rw [hc, round1_eq 120 (3/25 * 100) (by norm_num)]
    norm_num
  have hmarks :
      (resultOf (evaluate simpleSimilarity qShortC1 "a b c".data)).marks_obtained = 2/5 := by
    show round1 (combinedShort
      (simpleSimilarity "a b c".data (qShortC1.expected_answer.getD []))
      (checkKeyPoints "a b c".data (qShortC1.key_points.getD [])) *
        ((qShortC1.marks.getD 3 : ℕ) : ℚ)) = 2/5
    rw [hc, round1_eq 4 (3/25 * ((qShortC1.marks.getD 3 : ℕ) : ℚ))
      (by rw [show qShortC1.marks.getD 3 = 3 from rfl, abs_lt]; constructor <;> norm_num)]
    norm_num
  have hmax : (resultOf (evaluate simpleSimilarity qShortC1 "a b c".data)).max_marks = 3 := by
    show ((qShortC1.marks.getD 3 : ℕ) : ℚ) = 3
    rw [show qShortC1.marks.getD 3 = 3 from rfl]
    norm_num
  refine ⟨hpct, hmarks, hmax, ?_, ?_⟩
  · rw [hpct, hmarks, hmax]
    norm_num
  · rw [hpct, hmarks, hmax, round1_eq 133 (2/5/3 * 100)
      (by rw [abs_lt]; constructor <;> norm_num)]
    norm_num

/-- C1 as amended: in every branch `marks_obtained` and `percentage` are
rounded images of one and the same pre-rounding combined score —
`marks_obtained = round1(combined * max_marks)` and `percentage` equals
the UNROUNDED marks divided by `max_marks` times 100, rounded to one
decimal.  (With the already-rounded `marks_obtained` in place of the
unrounded product, the identity fails; see the counterexample.) -/
theorem c1_percentage_from_unrounded (simf : List Char → List Char → ℚ)
    (q : Question) (s : List Char) (r : EvalResult)
    (hok : evaluate simf q s = Except.ok r) (hmax : r.max_marks ≠ 0) :
    r.marks_obtained = round1 (combinedOf simf q s * r.max_marks) ∧
    r.percentage = round1 (combinedOf simf q s * r.max_marks / r.max_marks * 100) := by
  unfold evaluate at hok
  split_ifs at hok with h1 h2 h3
  · -- MCQ branch
    injection hok with hok
    subst hok
    have hmaxQ : ((q.marks.getD 1 : ℕ) : ℚ) ≠ 0 := hmax
    unfold combinedOf
    rw [if_pos h1]
    by_cases hcond : pyStrip (pyUpper s) = pyStrip (pyUpper (q.correct_answer.getD []))
    · constructor
      · show (if pyStrip (pyUpper s) = pyStrip (pyUpper (q.correct_answer.getD []))
            then ((q.marks.getD 1 : ℕ) : ℚ) else 0) =
          round1 ((if pyStrip (pyUpper s) = pyStrip (pyUpper (q.correct_answer.getD []))
            then (1 : ℚ) else 0) * ((q.marks.getD 1 : ℕ) : ℚ))
        rw [if_pos hcond, if_pos hcond, one_mul, round1_natCast]
      · show (if pyStrip (pyUpper s) = pyStrip (pyUpper (q.correct_answer.getD []))
            then (100 : ℚ) else 0) =
          round1 ((if pyStrip (pyUpper s) = pyStrip (pyUpper (q.correct_answer.getD []))
            then (1 : ℚ) else 0) * ((q.marks.getD 1 : ℕ) : ℚ) /
            ((q.marks.getD 1 : ℕ) : ℚ) * 100)
        rw [if_pos hcond, if_pos hcond, one_mul, div_self hmaxQ, one_mul,
          round1_eq 1000 100 (by norm_num)]
        norm_num
    · constructor
      · show (if pyStrip (pyUpper s) = pyStrip (pyUpper (q.correct_answer.getD []))
            then ((q.marks.getD 1 : ℕ) : ℚ) else 0) =
          round1 ((if pyStrip (pyUpper s) = pyStrip (pyUpper (q.correct_answer.getD []))
            then (1 : ℚ) else 0) * ((q.marks.getD 1 : ℕ) : ℚ))
        rw [if_neg hcond, if_neg hcond, zero_mul, round1_eq 0 0 (by norm_num)]
        norm_num
      · show (if pyStrip (pyUpper s) = pyStrip (pyUpper (q.correct_answer.getD []))
            then (100 : ℚ) else 0) =
          round1 ((if pyStrip (pyUpper s) = pyStrip (pyUpper (q.correct_answer.getD []))
            then (1 : ℚ) else 0) * ((q.marks.getD 1 : ℕ) : ℚ) /
            ((q.marks.getD 1 : ℕ) : ℚ) * 100)
        rw [if_neg hcond, if_neg hcond, zero_mul, zero_div, zero_mul,
          round1_eq 0 0 (by norm_num)]
        norm_num
  · -- SHORT_ANSWER branch
    injection hok with hok
    subst hok
    have hmaxQ : ((q.marks.getD 3 : ℕ) : ℚ) ≠ 0 := hmax
    unfold combinedOf
    rw [if_neg h1, if_pos h2]
    refine ⟨rfl, ?_⟩
    show round1 (combinedShort (simf s (q.expected_answer.getD []))
        (checkKeyPoints s (q.key_points.getD [])) * 100) =
      round1 (combinedShort (simf s (q.expected_answer.getD []))
        (checkKeyPoints s (q.key_points.getD [])) * ((q.marks.getD 3 : ℕ) : ℚ) /
        ((q.marks.getD 3 : ℕ) : ℚ) * 100)
    rw [mul_div_cancel_right₀ _ hmaxQ]
  · -- DESCRIPTIVE branch
    injection hok with hok
    subst hok
    have hmaxQ : ((q.marks.getD 5 : ℕ) : ℚ) ≠ 0 := hmax
    unfold combinedOf
    rw [if_neg h1, if_neg h2, if_pos h3]
    refine ⟨rfl, ?_⟩
    show round1 (combinedDescriptive (simf s (q.expected_answer.getD []))
        (checkKeyPoints s (q.key_points.getD []))
        (checkLengthAdequacy s "DESCRIPTIVE".data) (checkCoherence s) * 100) =
      round1 (combinedDescriptive (simf s (q.expected_answer.getD []))
        (checkKeyPoints s (q.key_points.getD []))
        (checkLengthAdequacy s "DESCRIPTIVE".data) (checkCoherence s) *
        ((q.marks.getD 5 : ℕ) : ℚ) / ((q.marks.getD 5 : ℕ) : ℚ) * 100)
    rw [mul_div_cancel_right₀ _ hmaxQ]

theorem c1_percentage_from_unrounded_witness :
    (evaluateMcq qMcqA "A".data).marks_obtained =
      round1 (combinedOf simpleSimilarity qMcqA "A".data *
        (evaluateMcq qMcqA "A".data).max_marks) ∧
    (evaluateMcq qMcqA "A".data).percentage =
      round1 (combinedOf simpleSimilarity qMcqA "A".data *
        (evaluateMcq qMcqA "A".data).max_marks /
        (evaluateMcq qMcqA "A".data).max_marks * 100) :=
  c1_percentage_from_unrounded simpleSimilarity qMcqA "A".data
    (evaluateMcq qMcqA "A".data) rfl (by show ((1 : ℕ) : ℚ) ≠ 0; norm_num)
